import Mathlib

/-!
Shallow embedding of the connection-resilience core of the iot-driver-copilot
repository: the MQTT connection manager of
src/iot_driver_copilot/usb_camera/driver.cpp, the health-phase reconciliation
loop and HTTP routing of
src/iot_driver_copilot/wheeltec_ros_2_wheeltec机器人/driver.cpp, and the
telemetry cache and HTTP routing of
src/iot_driver_copilot/wheeltec_ros_robot/driver.cpp.
-/

set_option maxHeartbeats 1000000

namespace UsbCamera

/-- A call issued by `USBCameraMQTTDriver` against the MQTT client `cli`:
either `cli.subscribe(topic, qos)` or `cli.publish(msg)` where `msg`
carries a topic and a serialized payload. -/
inductive BridgeCall where
  | subscribe (topic : String) (qos : Nat)
  | publish (topic : String) (payload : String)
deriving DecidableEq

/-- The mutable state of `USBCameraMQTTDriver`: the `connected` flag, the
`handlers` map (topic to handler, last registration wins; handlers are
identified by an abstract id), and the `pending_subs` vector of
(topic, qos) pairs buffered while disconnected. -/
structure DriverState where
  connected : Bool
  handlers : List (String × Nat)
  pending_subs : List (String × Nat)
deriving DecidableEq

/-- Assignment `handlers[topic] = userHandler` on the association list:
replaces the entry for `topic` if present, appends otherwise. -/
def setHandler (hs : List (String × Nat)) (topic : String) (h : Nat) :
    List (String × Nat) :=
  match hs with
  | [] => [(topic, h)]
  | (t, g) :: rest =>
      if t = topic then (t, h) :: rest else (t, g) :: setHandler rest topic h

/-- `USBCameraMQTTDriver::subscribeTopic` (driver.cpp lines 98-116): records
the handler in `handlers`, then, if `connected`, subscribes on the bridge at
once; otherwise appends (topic, qos) to `pending_subs`. Returns the new
state and the bridge calls issued. -/
def subscribeTopic (s : DriverState) (topic : String) (qos : Nat) (h : Nat) :
    DriverState × List BridgeCall :=
  let s1 : DriverState := { s with handlers := setHandler s.handlers topic h }
  if s1.connected then
    (s1, [BridgeCall.subscribe topic qos])
  else
    ({ s1 with pending_subs := s1.pending_subs ++ [(topic, qos)] }, [])

/-- `USBCameraMQTTDriver::publishCommand` (driver.cpp lines 119-124):
serializes the payload and calls `cli.publish(msg)->wait()` unconditionally,
with no check of `connected` and no buffering. -/
def publishCommand (s : DriverState) (topic : String) (payload : String) :
    DriverState × List BridgeCall :=
  (s, [BridgeCall.publish topic payload])

/-- The connected handler installed by `connect()` (driver.cpp lines
141-148): sets `connected`, subscribes every entry of `pending_subs` on the
bridge in vector order, then clears `pending_subs`. -/
def onConnected (s : DriverState) : DriverState × List BridgeCall :=
  ({ s with connected := true, pending_subs := [] },
   s.pending_subs.map fun p => BridgeCall.subscribe p.1 p.2)

/-- The connection-lost handler installed by `connect()` (driver.cpp lines
150-152): clears `connected` only; `pending_subs` and `handlers` are kept. -/
def onConnectionLost (s : DriverState) : DriverState × List BridgeCall :=
  ({ s with connected := false }, [])

/-- An operation on the driver, as issued by user code or by connection
events. -/
inductive Op where
  | subscribeTopic (topic : String) (qos : Nat) (h : Nat)
  | publishCommand (topic : String) (payload : String)
  | onConnected
  | onConnectionLost
deriving DecidableEq

/-- Apply one operation to the driver state. -/
def applyOp (s : DriverState) : Op → DriverState × List BridgeCall
  | .subscribeTopic t q h => subscribeTopic s t q h
  | .publishCommand t p => publishCommand s t p
  | .onConnected => onConnected s
  | .onConnectionLost => onConnectionLost s

/-- Run a sequence of operations, collecting the bridge calls in order. -/
def runOps (s : DriverState) : List Op → DriverState × List BridgeCall
  | [] => (s, [])
  | op :: ops =>
      let r1 := applyOp s op
      let r2 := runOps r1.1 ops
      (r2.1, r1.2 ++ r2.2)

/-- Map a list of subscribe requests to driver operations. -/
def subOps (subs : List (String × Nat × Nat)) : List Op :=
  subs.map fun x => Op.subscribeTopic x.1 x.2.1 x.2.2

/-- The (topic, qos) pairs of a list of subscribe requests. -/
def subPairs (subs : List (String × Nat × Nat)) : List (String × Nat) :=
  subs.map fun x => (x.1, x.2.1)

theorem subscribeTopic_disconnected (s : DriverState) (t : String) (q h : Nat)
    (hc : s.connected = false) :
    subscribeTopic s t q h =
      ({ s with handlers := setHandler s.handlers t h,
                pending_subs := s.pending_subs ++ [(t, q)] }, []) := by
  simp [subscribeTopic, hc]

theorem runOps_subOps_disconnected (subs : List (String × Nat × Nat)) :
    ∀ s : DriverState, s.connected = false →
      (runOps s (subOps subs)).1.connected = false ∧
      (runOps s (subOps subs)).1.pending_subs = s.pending_subs ++ subPairs subs ∧
      (runOps s (subOps subs)).2 = [] := by
  induction subs with
  | nil => intro s hc; simp [subOps, subPairs, runOps, hc]
  | cons x xs ih =>
      intro s hc
      have hstep := subscribeTopic_disconnected s x.1 x.2.1 x.2.2 hc
      have ih2 := ih { s with handlers := setHandler s.handlers x.1 x.2.2,
                              pending_subs := s.pending_subs ++ [(x.1, x.2.1)] } hc
      simp only [subOps, List.map_cons, runOps, applyOp, hstep] at *
      refine ⟨ih2.1, ?_, ?_⟩
      · rw [ih2.2.1]; simp [subPairs]
      · simp [ih2.2.2]

theorem runOps_append (l l' : List Op) :
    ∀ s : DriverState,
      runOps s (l ++ l') =
        ((runOps (runOps s l).1 l').1,
         (runOps s l).2 ++ (runOps (runOps s l).1 l').2) := by
  induction l with
  | nil => intro s; simp [runOps]
  | cons op ops ih => intro s; simp [runOps, ih]

end UsbCamera

/-- C3: for every sequence of subscribe calls issued while Disconnected, a
subsequent successful connect replays each buffered subscription against the
bridge in the FIFO order the calls were issued (after any previously pending
ones), then clears the pending queue — so each buffered subscription is
replayed exactly once per connection cycle, and the driver ends up
Connected. -/
theorem C3_subscribe_buffer_fifo_replay (s : UsbCamera.DriverState)
    (subs : List (String × Nat × Nat)) (hc : s.connected = false) :
    (UsbCamera.runOps s (UsbCamera.subOps subs ++ [UsbCamera.Op.onConnected])).2 =
      (s.pending_subs ++ UsbCamera.subPairs subs).map
        (fun p => UsbCamera.BridgeCall.subscribe p.1 p.2) ∧
    (UsbCamera.runOps s
        (UsbCamera.subOps subs ++ [UsbCamera.Op.onConnected])).1.pending_subs = [] ∧
    (UsbCamera.runOps s
        (UsbCamera.subOps subs ++ [UsbCamera.Op.onConnected])).1.connected = true := by
  have hpre := UsbCamera.runOps_subOps_disconnected subs s hc
  rw [UsbCamera.runOps_append]
  simp [UsbCamera.runOps, UsbCamera.applyOp, UsbCamera.onConnected,
    hpre.2.2, hpre.2.1]

/-- Witness for C3: two subscriptions ("video" then "audio") issued while
never-yet-connected are replayed in that order on connect and the queue is
left empty. -/
theorem C3_subscribe_buffer_fifo_replay_witness :
    (⟨false, [], []⟩ : UsbCamera.DriverState).connected = false ∧
    (UsbCamera.runOps ⟨false, [], []⟩
        (UsbCamera.subOps [("video", 1, 0), ("audio", 1, 1)] ++
          [UsbCamera.Op.onConnected])).2 =
      [UsbCamera.BridgeCall.subscribe "video" 1,
       UsbCamera.BridgeCall.subscribe "audio" 1] :=
  ⟨rfl, by
    have h := C3_subscribe_buffer_fifo_replay ⟨false, [], []⟩
      [("video", 1, 0), ("audio", 1, 1)] rfl
    rw [h.1]; rfl⟩

/-- C1 counterexample: run the spec scenario — subscribe("video") then
publish("start_capture") while never-yet-connected, then a successful
connect. The claim predicts the bridge observes subscribe("video") followed
by publish("start_capture"). The code instead issues the publish
immediately while still Disconnected (publishCommand neither checks
`connected` nor touches `pending_subs`), so the bridge observes the publish
first and the replayed subscribe second, and the state after the
disconnected publish is unchanged (nothing was buffered for it). -/
theorem C1_publish_buffering_counterexample :
    (UsbCamera.runOps ⟨false, [], []⟩
        [UsbCamera.Op.subscribeTopic "video" 1 0,
         UsbCamera.Op.publishCommand "start_capture" "null",
         UsbCamera.Op.onConnected]).2 =
      [UsbCamera.BridgeCall.publish "start_capture" "null",
       UsbCamera.BridgeCall.subscribe "video" 1] ∧
    (UsbCamera.publishCommand ⟨false, [("video", 0)], [("video", 1)]⟩
        "start_capture" "null").1 =
      (⟨false, [("video", 0)], [("video", 1)]⟩ : UsbCamera.DriverState) ∧
    ([UsbCamera.BridgeCall.publish "start_capture" "null",
      UsbCamera.BridgeCall.subscribe "video" 1] ≠
     [UsbCamera.BridgeCall.subscribe "video" 1,
      UsbCamera.BridgeCall.publish "start_capture" "null"]) := by
  refine ⟨by rfl, by rfl, by decide⟩

/-- C1 amended: a publish is never buffered. For every driver state
(Connected or Disconnected, including before the first successful connect),
publishCommand issues the publish against the bridge immediately and leaves
the driver state — in particular the pending queue — unchanged; only
subscriptions issued while Disconnected are buffered and replayed on
connect. -/
theorem C1_publish_never_buffered (s : UsbCamera.DriverState)
    (topic payload : String) :
    UsbCamera.publishCommand s topic payload =
      (s, [UsbCamera.BridgeCall.publish topic payload]) := rfl

/-- A JSON value, as handled through jsoncpp / nlohmann::json in the two
robot drivers. Numbers are modelled as rationals; objects keep their fields
in insertion order. -/
inductive JVal where
  | null
  | bool (b : Bool)
  | num (q : ℚ)
  | str (s : String)
  | arr (items : List JVal)
  | obj (fields : List (String × JVal))

/-- Lookup of a key in a JSON object's field list (first match wins). -/
def lookupField : List (String × JVal) → String → Option JVal
  | [], _ => none
  | (k, v) :: rest, key => if k = key then some v else lookupField rest key

/-- Member lookup on a JSON value: a key lookup on objects, nothing on
other values. -/
def JVal.getField : JVal → String → Option JVal
  | .obj fields, key => lookupField fields key
  | _, _ => none

/-- Json::Value::isMember — true exactly when the value is an object
containing the key. -/
def JVal.isMember (j : JVal) (key : String) : Bool :=
  (j.getField key).isSome

namespace Ros2Driver

/-- State of `Ros2BridgeClient` (driver.cpp lines 188-217): the websocket
url is irrelevant to the claims; the `connected_` flag is the state. -/
structure Ros2BridgeClient where
  connected_ : Bool

/-- `Ros2BridgeClient::connect` (lines 196-201): stubbed as always
successful — sets `connected_` and returns it (true). -/
def Ros2BridgeClient.connect (c : Ros2BridgeClient) : Ros2BridgeClient × Bool :=
  ({ c with connected_ := true }, true)

/-- `Ros2BridgeClient::is_connected` (lines 203-206). -/
def Ros2BridgeClient.is_connected (c : Ros2BridgeClient) : Bool :=
  c.connected_

/-- The directions accepted by `send_movement_command` (lines 214-215). -/
def valid_directions : List String :=
  ["forward", "backward", "left", "right", "stop"]

/-- `Ros2BridgeClient::send_movement_command` (lines 208-216): false when
not connected; otherwise true exactly when the direction is one of the five
recognized words. -/
def Ros2BridgeClient.send_movement_command (c : Ros2BridgeClient)
    (direction : String) : Bool :=
  if c.is_connected = false then false
  else decide (direction ∈ valid_directions)

/-- An HTTP response as produced by handle_move: a status code and the JSON
object `resp` (fields in insertion order). -/
structure HttpResponse where
  status : Nat
  body : List (String × JVal)

/-- nlohmann `payload.value(key, "")`: the default when the key is missing;
the string when present as a string; `none` models the type_error thrown
when the member (or the payload itself) is not of the queried type, which
handle_move's catch turns into the invalid-JSON response. -/
def jsonValueString (j : JVal) (key : String) (dflt : String) : Option String :=
  match j with
  | .obj fields =>
      match lookupField fields key with
      | none => some dflt
      | some (.str s) => some s
      | some _ => none
  | _ => none

/-- `handle_move` of the ROS 2 driver (driver.cpp lines 227-257). The body
is `none` when nlohmann::json::parse threw. -/
def handle_move (client : Ros2BridgeClient) (body : Option JVal) :
    HttpResponse :=
  match body with
  | none =>
      ⟨400, [("status", .str "error"), ("message", .str "Invalid JSON payload")]⟩
  | some payload =>
      match jsonValueString payload "direction" "" with
      | none =>
          ⟨400, [("status", .str "error"),
                 ("message", .str "Invalid JSON payload")]⟩
      | some direction =>
          if direction = "" then
            ⟨400, [("status", .str "error"),
                   ("message", .str "Missing \x27direction\x27 field")]⟩
          else if client.send_movement_command direction then
            ⟨200, [("status", .str "ok"),
                   ("direction", .str direction),
                   ("message", .str "Movement command sent")]⟩
          else
            ⟨500, [("status", .str "fail"),
                   ("message", .str "Failed to send command")]⟩

/-- Environment of one iteration of update_phase_thread: what
`bridge->is_connected()` returns at this tick, and whether
`patch_edgedevice_phase` would succeed if called. -/
structure TickEnv where
  bridge_connected : Bool
  patch_ok : Bool

/-- The candidate phase computed at driver.cpp lines 269-271:
`new_phase = "Unknown"` is immediately overwritten by `"Running"` when the
bridge is connected and by `"Pending"` otherwise. -/
def tick_candidate (bridge_connected : Bool) : String :=
  if bridge_connected then "Running" else "Pending"

/-- One iteration of update_phase_thread's while body (lines 268-279):
compute the candidate; if it differs from the stored `phase`, call
patch_edgedevice_phase, and store the candidate only when the patch
succeeds. Returns the new stored phase and the list of phases for which a
control-plane report was attempted this tick. -/
def tick (phase : String) (e : TickEnv) : String × List String :=
  let new_phase := tick_candidate e.bridge_connected
  if phase ≠ new_phase then
    if e.patch_ok then (new_phase, [new_phase]) else (phase, [new_phase])
  else (phase, [])

/-- The reconciliation loop of update_phase_thread run over a finite list of
tick environments (the while(running) loop observed until shutdown),
collecting all report attempts in order. -/
def update_phase_loop (phase : String) : List TickEnv → String × List String
  | [] => (phase, [])
  | e :: es =>
      let r1 := tick phase e
      let r2 := update_phase_loop r1.1 es
      (r2.1, r1.2 ++ r2.2)

/-- Modelled from the spec: the derivation rule the claim states —
Connected → Running; never-yet-connected → Pending; lost-after-having-
connected → Failed. Written for comparison with tick_candidate; the source
tick (lines 269-271) takes no connection-history input at all. -/
def claimed_candidate (connected ever_connected : Bool) : String :=
  if connected then "Running"
  else if ever_connected then "Failed" else "Pending"

/-- The report trace of `main` (driver.cpp lines 286-344) for a run in
which the EdgeDevice address lookup succeeds or fails: no address → a
single "Unknown" patch and exit; otherwise the initial patch with
"Running"/"Failed" according to the connect result (the phase being stored
regardless of that patch's outcome), then the loop's report attempts, then —
after the HTTP server exits and the loop thread is joined — the final patch
with "Pending". -/
def main_reports (address_found : Bool) (client : Ros2BridgeClient)
    (ticks : List TickEnv) : List String :=
  if address_found = false then ["Unknown"]
  else
    let c := client.connect
    let initial := if c.2 then "Running" else "Failed"
    initial :: ((update_phase_loop initial ticks).2 ++ ["Pending"])

end Ros2Driver

/-- C2 counterexample: at a reconciliation tick where the bridge connection
has been lost after having connected, the code's candidate is "Pending",
not the "Failed" the claim requires: starting from stored phase "Running",
a tick that still sees the bridge connected followed by a tick that sees it
lost attempts exactly one report, of "Pending", while the claimed rule
derives "Failed" for that lost-after-connected tick. -/
theorem C2_phase_derivation_counterexample :
    Ros2Driver.tick_candidate false = "Pending" ∧
    Ros2Driver.claimed_candidate false true = "Failed" ∧
    (Ros2Driver.update_phase_loop "Running"
        [⟨true, true⟩, ⟨false, true⟩]).2 = ["Pending"] ∧
    ("Pending" : String) ≠ "Failed" := by
  refine ⟨rfl, rfl, by rfl, by decide⟩

/-- C2 amended: at every reconciliation tick the candidate phase is Running
when the bridge reports connected and Pending otherwise, regardless of
whether the connection was ever previously established; the tick derivation
never yields Failed or Unknown (those phases are produced only by main's
startup reports, not by the loop). -/
theorem C2_phase_derivation (b : Bool) :
    Ros2Driver.tick_candidate b = (if b then "Running" else "Pending") ∧
    Ros2Driver.tick_candidate b ≠ "Failed" ∧
    Ros2Driver.tick_candidate b ≠ "Unknown" := by
  cases b <;> refine ⟨rfl, by decide, by decide⟩

/-- C4: at every tick, a control-plane report is attempted exactly when the
fresh candidate differs from the stored ReportedPhase (and then exactly
one, of the candidate); when the patch succeeds the stored phase equals the
candidate afterwards, when it fails the stored phase is unchanged (so the
report is retried next tick); and a failing report never terminates the
loop — the loop still processes every remaining tick. -/
theorem C4_idempotent_report (phase : String) (e : Ros2Driver.TickEnv)
    (es : List Ros2Driver.TickEnv) :
    ((Ros2Driver.tick phase e).2 =
      if Ros2Driver.tick_candidate e.bridge_connected ≠ phase then
        [Ros2Driver.tick_candidate e.bridge_connected]
      else []) ∧
    (e.patch_ok = true →
      (Ros2Driver.tick phase e).1 =
        Ros2Driver.tick_candidate e.bridge_connected) ∧
    (e.patch_ok = false → (Ros2Driver.tick phase e).1 = phase) ∧
    (Ros2Driver.update_phase_loop phase (e :: es) =
      ((Ros2Driver.update_phase_loop (Ros2Driver.tick phase e).1 es).1,
       (Ros2Driver.tick phase e).2 ++
         (Ros2Driver.update_phase_loop (Ros2Driver.tick phase e).1 es).2)) := by
  refine ⟨?_, ?_, ?_, rfl⟩
  · by_cases h : phase = Ros2Driver.tick_candidate e.bridge_connected
    · simp [Ros2Driver.tick, h]
    · have h' : ¬ Ros2Driver.tick_candidate e.bridge_connected = phase :=
        fun hh => h hh.symm
      cases hp : e.patch_ok <;> simp [Ros2Driver.tick, h, h', hp]
  · intro hp
    by_cases h : phase = Ros2Driver.tick_candidate e.bridge_connected
    · simp [Ros2Driver.tick, h]
    · simp [Ros2Driver.tick, h, hp]
  · intro hp
    by_cases h : phase = Ros2Driver.tick_candidate e.bridge_connected
    · simp [Ros2Driver.tick, h]
    · simp [Ros2Driver.tick, h, hp]

/-- Witness for C4: a tick whose candidate (Running) differs from the
stored phase (Pending) but whose patch fails attempts exactly one report
and leaves the stored phase Pending; the loop continues afterwards. -/
theorem C4_idempotent_report_witness :
    (Ros2Driver.tick "Pending" ⟨true, false⟩).2 = ["Running"] ∧
    (Ros2Driver.tick "Pending" ⟨true, false⟩).1 = "Pending" := by
  have h := C4_idempotent_report "Pending" ⟨true, false⟩ []
  refine ⟨?_, h.2.2.1 rfl⟩
  · rw [h.1]; rfl

/-- C8: on process shutdown (listen returns, the loop thread is stopped and
joined), exactly one final best-effort report is issued after the loop's
own reports, and its phase is "Pending" — for every bridge-client state and
every sequence of tick environments observed before shutdown. -/
theorem C8_final_shutdown_report (client : Ros2Driver.Ros2BridgeClient)
    (ticks : List Ros2Driver.TickEnv) :
    Ros2Driver.main_reports true client ticks =
      ("Running" :: (Ros2Driver.update_phase_loop "Running" ticks).2) ++
        ["Pending"] ∧
    (Ros2Driver.main_reports true client ticks).getLast? = some "Pending" := by
  constructor
  · simp [Ros2Driver.main_reports, Ros2Driver.Ros2BridgeClient.connect]
  · simp only [Ros2Driver.main_reports, Ros2Driver.Ros2BridgeClient.connect,
      Bool.true_eq_false, if_false, ← List.cons_append]
    rw [List.getLast?_concat]

/-- C10: for every POST /move body that parses as a JSON object — a missing
or empty "direction" yields HTTP 400 with a message naming direction; with
the bridge connected, one of the five recognized directions yields HTTP 200
with status "ok" echoing the direction; any other non-empty direction
yields HTTP 500 with status "fail" (a delivery failure, not a validation
error). -/
theorem C10_move_direction_routing (client : Ros2Driver.Ros2BridgeClient)
    (fields : List (String × JVal)) :
    ((lookupField fields "direction" = none ∨
        lookupField fields "direction" = some (.str "")) →
      Ros2Driver.handle_move client (some (.obj fields)) =
        ⟨400, [("status", .str "error"),
               ("message", .str "Missing \x27direction\x27 field")]⟩ ∧
      List.IsInfix "direction".data "Missing \x27direction\x27 field".data) ∧
    (∀ d : String, client.connected_ = true →
      lookupField fields "direction" = some (.str d) →
      d ∈ Ros2Driver.valid_directions →
      Ros2Driver.handle_move client (some (.obj fields)) =
        ⟨200, [("status", .str "ok"), ("direction", .str d),
               ("message", .str "Movement command sent")]⟩) ∧
    (∀ d : String, client.connected_ = true →
      lookupField fields "direction" = some (.str d) →
      d ∉ Ros2Driver.valid_directions → d ≠ "" →
      Ros2Driver.handle_move client (some (.obj fields)) =
        ⟨500, [("status", .str "fail"),
               ("message", .str "Failed to send command")]⟩) := by
  refine ⟨?_, ?_, ?_⟩
  · rintro (h | h) <;>
      exact ⟨by simp [Ros2Driver.handle_move, Ros2Driver.jsonValueString, h],
             by decide⟩
  · intro d hconn hlook hmem
    have hne : d ≠ "" := by
      rintro rfl; exact absurd hmem (by decide)
    have hsend : client.send_movement_command d = true := by
      simp [Ros2Driver.Ros2BridgeClient.send_movement_command,
        Ros2Driver.Ros2BridgeClient.is_connected, hconn, hmem]
    simp [Ros2Driver.handle_move, Ros2Driver.jsonValueString, hlook, hne, hsend]
  · intro d hconn hlook hmem hne
    have hsend : client.send_movement_command d = false := by
      simp [Ros2Driver.Ros2BridgeClient.send_movement_command,
        Ros2Driver.Ros2BridgeClient.is_connected, hconn, hmem]
    simp [Ros2Driver.handle_move, Ros2Driver.jsonValueString, hlook, hne, hsend]

/-- Witness for C10: with a connected client, direction "forward" yields
200/ok echoing "forward"; direction "sideways" yields 500/fail; a body
without "direction" yields the 400 response naming direction. -/
theorem C10_move_direction_routing_witness :
    Ros2Driver.handle_move ⟨true⟩ (some (.obj [("direction", .str "forward")])) =
      ⟨200, [("status", .str "ok"), ("direction", .str "forward"),
             ("message", .str "Movement command sent")]⟩ ∧
    Ros2Driver.handle_move ⟨true⟩ (some (.obj [("direction", .str "sideways")])) =
      ⟨500, [("status", .str "fail"),
             ("message", .str "Failed to send command")]⟩ ∧
    Ros2Driver.handle_move ⟨true⟩ (some (.obj [("speed", .num 1)])) =
      ⟨400, [("status", .str "error"),
             ("message", .str "Missing \x27direction\x27 field")]⟩ :=
  ⟨(C10_move_direction_routing ⟨true⟩ [("direction", .str "forward")]).2.1
      "forward" rfl rfl (by decide),
   (C10_move_direction_routing ⟨true⟩ [("direction", .str "sideways")]).2.2
      "sideways" rfl rfl (by decide) (by decide),
   ((C10_move_direction_routing ⟨true⟩ [("speed", .num 1)]).1
      (Or.inl rfl)).1⟩

namespace RosRobot

/-- A 3-vector of a ROS message (geometry_msgs::Vector3 / Point). -/
structure Vec3 where
  x : ℚ
  y : ℚ
  z : ℚ
deriving DecidableEq

/-- A quaternion of a ROS message (geometry_msgs::Quaternion). -/
structure Quat where
  x : ℚ
  y : ℚ
  z : ℚ
  w : ℚ
deriving DecidableEq

/-- geometry_msgs::Pose as used by handle_status: position and
orientation. -/
structure Pose where
  position : Vec3
  orientation : Quat
deriving DecidableEq

/-- geometry_msgs::Twist: the message published on /cmd_vel by handle_move,
and the twist part of odometry. -/
structure Twist where
  linear : Vec3
  angular : Vec3
deriving DecidableEq

/-- nav_msgs::Odometry restricted to the fields the driver reads. -/
structure Odometry where
  pose : Pose
  twist : Twist
deriving DecidableEq

/-- sensor_msgs::Imu restricted to the fields the driver reads. -/
structure Imu where
  orientation : Quat
  angular_velocity : Vec3
  linear_acceleration : Vec3
deriving DecidableEq

/-- sensor_msgs::LaserScan restricted to the fields the driver reads. -/
structure LaserScan where
  ranges : List ℚ
  angle_min : ℚ
  angle_max : ℚ
  angle_increment : ℚ
  time_increment : ℚ
  scan_time : ℚ
  range_min : ℚ
  range_max : ℚ
deriving DecidableEq

/-- sensor_msgs::Image restricted to the fields the driver reads; the raw
byte array is represented by its length (`data.size()` is all
handle_status uses). -/
structure Image where
  width : ℕ
  height : ℕ
  encoding : String
  img_step : ℕ
  data_len : ℕ
deriving DecidableEq

/-- The global `RobotStatus g_status` (driver.cpp lines 71-81): one value
and one ready flag per telemetry channel, guarded by one mutex. -/
structure RobotStatus where
  battery : ℚ
  odom : Odometry
  imu : Imu
  lidar : LaserScan
  camera : Image
  odom_ready : Bool
  imu_ready : Bool
  lidar_ready : Bool
  camera_ready : Bool
  battery_ready : Bool
deriving DecidableEq

/-- The default-constructed g_status: zero-valued messages, battery 0.0f,
every ready flag false (line 78). -/
def init_status : RobotStatus :=
  { battery := 0
    odom := ⟨⟨⟨0, 0, 0⟩, ⟨0, 0, 0, 0⟩⟩, ⟨⟨0, 0, 0⟩, ⟨0, 0, 0⟩⟩⟩
    imu := ⟨⟨0, 0, 0, 0⟩, ⟨0, 0, 0⟩, ⟨0, 0, 0⟩⟩
    lidar := ⟨[], 0, 0, 0, 0, 0, 0, 0⟩
    camera := ⟨0, 0, "", 0, 0⟩
    odom_ready := false
    imu_ready := false
    lidar_ready := false
    camera_ready := false
    battery_ready := false }

/-- An inbound ROS message, dispatched to one of the five callbacks
(driver.cpp lines 83-107). -/
inductive RosMsg where
  | battery (v : ℚ)
  | odom (m : Odometry)
  | imu (m : Imu)
  | lidar (m : LaserScan)
  | camera (m : Image)

/-- The five telemetry callbacks: each overwrites its channel's value and
sets its ready flag, under the mutex. -/
def apply_cb (s : RobotStatus) : RosMsg → RobotStatus
  | .battery v => { s with battery := v, battery_ready := true }
  | .odom m => { s with odom := m, odom_ready := true }
  | .imu m => { s with imu := m, imu_ready := true }
  | .lidar m => { s with lidar := m, lidar_ready := true }
  | .camera m => { s with camera := m, camera_ready := true }

/-- A sequence of callback deliveries applied in order. -/
def apply_cbs (s : RobotStatus) : List RosMsg → RobotStatus
  | [] => s
  | m :: ms => apply_cbs (apply_cb s m) ms

/-- The "odometry" object built by handle_status (lines 179-194). -/
def odometry_json (o : Odometry) : JVal :=
  .obj [("x", .num o.pose.position.x), ("y", .num o.pose.position.y),
        ("z", .num o.pose.position.z),
        ("orientation",
         .obj [("x", .num o.pose.orientation.x),
               ("y", .num o.pose.orientation.y),
               ("z", .num o.pose.orientation.z),
               ("w", .num o.pose.orientation.w)]),
        ("linear",
         .obj [("x", .num o.twist.linear.x), ("y", .num o.twist.linear.y),
               ("z", .num o.twist.linear.z)]),
        ("angular",
         .obj [("x", .num o.twist.angular.x), ("y", .num o.twist.angular.y),
               ("z", .num o.twist.angular.z)])]

/-- The "imu" object built by handle_status (lines 196-208). -/
def imu_json (i : Imu) : JVal :=
  .obj [("orientation",
         .obj [("x", .num i.orientation.x), ("y", .num i.orientation.y),
               ("z", .num i.orientation.z), ("w", .num i.orientation.w)]),
        ("angular_velocity",
         .obj [("x", .num i.angular_velocity.x),
               ("y", .num i.angular_velocity.y),
               ("z", .num i.angular_velocity.z)]),
        ("linear_acceleration",
         .obj [("x", .num i.linear_acceleration.x),
               ("y", .num i.linear_acceleration.y),
               ("z", .num i.linear_acceleration.z)])]

/-- The "lidar" object built by handle_status (lines 210-219). -/
def lidar_json (l : LaserScan) : JVal :=
  .obj [("ranges", .arr (l.ranges.map JVal.num)),
        ("angle_min", .num l.angle_min), ("angle_max", .num l.angle_max),
        ("angle_increment", .num l.angle_increment),
        ("time_increment", .num l.time_increment),
        ("scan_time", .num l.scan_time),
        ("range_min", .num l.range_min), ("range_max", .num l.range_max)]

/-- The "camera" object built by handle_status (lines 221-230): image
metadata only, no raw bytes. -/
def camera_json (c : Image) : JVal :=
  .obj [("width", .num c.width), ("height", .num c.height),
        ("encoding", .str c.encoding), ("step", .num c.img_step),
        ("data_len", .num c.data_len)]

/-- The fields of the `root` JSON object assembled by handle_status
(driver.cpp lines 170-233): "battery" is always present (null when not
ready); each other channel appears only when its ready flag is set. -/
def status_fields (s : RobotStatus) : List (String × JVal) :=
  [("battery", if s.battery_ready then .num s.battery else .null)] ++
  (if s.odom_ready then [("odometry", odometry_json s.odom)] else []) ++
  (if s.imu_ready then [("imu", imu_json s.imu)] else []) ++
  (if s.lidar_ready then [("lidar", lidar_json s.lidar)] else []) ++
  (if s.camera_ready then [("camera", camera_json s.camera)] else [])

/-- handle_status: the JSON document sent with HTTP 200. -/
def handle_status (s : RobotStatus) : JVal :=
  .obj (status_fields s)

/-- The HTTP output of a request handler: http_error(code, msg) or a 200
response carrying a JSON object. -/
inductive HttpOut where
  | error (code : Nat) (msg : String)
  | json (fields : List (String × JVal))

/-- Json::Value::asDouble on the values the movement handler can receive:
the number itself for numerics, 0 for null, 0/1 for booleans. (String and
aggregate inputs raise a jsoncpp exception; no claim exercises them.) -/
def asDouble : JVal → ℚ
  | .num q => q
  | .bool b => if b then 1 else 0
  | _ => 0

/-- `handle_move` of the wheeltec_ros_robot driver (driver.cpp lines
281-305): parse the body (`none` when Json::Reader::parse failed), require
members "linear" and "angular", then publish exactly one
geometry_msgs::Twist with linear.x and angular.z set on /cmd_vel and echo
status/linear/angular. Returns the response and the list of published
Twist messages. -/
def handle_move (body : Option JVal) : HttpOut × List Twist :=
  match body with
  | none => (.error 400 "Invalid JSON", [])
  | some req =>
      if (req.isMember "linear" && req.isMember "angular") = false then
        (.error 400 "Missing \x27linear\x27 or \x27angular\x27", [])
      else
        let linear := asDouble ((req.getField "linear").getD .null)
        let angular := asDouble ((req.getField "angular").getD .null)
        (.json [("status", .str "ok"), ("linear", .num linear),
                ("angular", .num angular)],
         [{ linear := ⟨linear, 0, 0⟩, angular := ⟨0, 0, angular⟩ }])

end RosRobot

/-- C5: for every movement request whose JSON body is missing a required
field — "linear" or "angular" — the router answers with the client-error
response HTTP 400 whose message names each required field (in particular
the missing one), and performs zero publishes. -/
theorem C5_missing_field_validation (fields : List (String × JVal))
    (h : lookupField fields "linear" = none ∨
      lookupField fields "angular" = none) :
    RosRobot.handle_move (some (.obj fields)) =
      (.error 400 "Missing \x27linear\x27 or \x27angular\x27", []) ∧
    List.IsInfix "linear".data "Missing \x27linear\x27 or \x27angular\x27".data ∧
    List.IsInfix "angular".data "Missing \x27linear\x27 or \x27angular\x27".data := by
  refine ⟨?_, by decide, by decide⟩
  rcases h with h | h <;>
    simp [RosRobot.handle_move, JVal.isMember, JVal.getField, h]

/-- Witness for C5: the spec scenario body with only "angular" (missing
"linear"), and a body with only "linear" (missing "angular"), both yield
the 400 response and no publish. -/
theorem C5_missing_field_validation_witness :
    RosRobot.handle_move (some (.obj [("angular", .num (-1/5))])) =
      (.error 400 "Missing \x27linear\x27 or \x27angular\x27", []) ∧
    RosRobot.handle_move (some (.obj [("linear", .num (1/2))])) =
      (.error 400 "Missing \x27linear\x27 or \x27angular\x27", []) :=
  ⟨(C5_missing_field_validation [("angular", .num (-1/5))] (Or.inl (by rfl))).1,
   (C5_missing_field_validation [("linear", .num (1/2))] (Or.inr (by rfl))).1⟩

/-- C6: the movement request with body linear = 0.5 and angular = -0.2
causes exactly one publish of a Twist carrying those two values (as
linear.x and angular.z) and the response echoes status "ok" with the two
fields. -/
theorem C6_move_publishes_once :
    RosRobot.handle_move
        (some (.obj [("linear", .num (1/2)), ("angular", .num (-1/5))])) =
      (.json [("status", .str "ok"), ("linear", .num (1/2)),
              ("angular", .num (-1/5))],
       [{ linear := ⟨1/2, 0, 0⟩, angular := ⟨0, 0, -1/5⟩ }]) ∧
    (RosRobot.handle_move
        (some (.obj [("linear", .num (1/2)), ("angular", .num (-1/5))]))).2.length
      = 1 := by
  constructor
  · rfl
  · rfl

namespace RosRobot

/-- A telemetry channel of the wheeltec_ros_robot driver. -/
inductive Chan where
  | battery
  | odom
  | imu
  | lidar
  | camera
deriving DecidableEq

/-- The ready flag of a channel in the shared status. -/
def ready (s : RobotStatus) : Chan → Bool
  | .battery => s.battery_ready
  | .odom => s.odom_ready
  | .imu => s.imu_ready
  | .lidar => s.lidar_ready
  | .camera => s.camera_ready

/-- The channel an inbound ROS message updates. -/
def chanOf : RosMsg → Chan
  | .battery _ => .battery
  | .odom _ => .odom
  | .imu _ => .imu
  | .lidar _ => .lidar
  | .camera _ => .camera

theorem ready_apply_cb_mono (s : RobotStatus) (m : RosMsg) (c : Chan)
    (h : ready s c = true) : ready (apply_cb s m) c = true := by
  cases m <;> cases c <;> simp_all [apply_cb, ready]

theorem ready_apply_cbs_mono (ms : List RosMsg) :
    ∀ (s : RobotStatus) (c : Chan), ready s c = true →
      ready (apply_cbs s ms) c = true := by
  induction ms with
  | nil => intro s c h; exact h
  | cons m ms ih =>
      intro s c h
      exact ih (apply_cb s m) c (ready_apply_cb_mono s m c h)

end RosRobot

/-- C7: every channel's ready flag starts false, is set to true by the
channel's first update, and is never reset by any later callback; the
status snapshot carries a channel's value exactly when its flag is true —
battery is null when not ready, and the other four channels are omitted
from the document when not ready. -/
theorem C7_ready_flags_and_snapshot (s : RosRobot.RobotStatus) :
    (∀ c, RosRobot.ready RosRobot.init_status c = false) ∧
    (∀ m, RosRobot.ready (RosRobot.apply_cb s m) (RosRobot.chanOf m) = true) ∧
    (∀ ms c, RosRobot.ready s c = true →
      RosRobot.ready (RosRobot.apply_cbs s ms) c = true) ∧
    ((s.battery_ready = true →
        lookupField (RosRobot.status_fields s) "battery" = some (.num s.battery)) ∧
     (s.battery_ready = false →
        lookupField (RosRobot.status_fields s) "battery" = some .null)) ∧
    ((s.odom_ready = true →
        lookupField (RosRobot.status_fields s) "odometry" =
          some (RosRobot.odometry_json s.odom)) ∧
     (s.odom_ready = false →
        lookupField (RosRobot.status_fields s) "odometry" = none)) ∧
    ((s.imu_ready = true →
        lookupField (RosRobot.status_fields s) "imu" =
          some (RosRobot.imu_json s.imu)) ∧
     (s.imu_ready = false →
        lookupField (RosRobot.status_fields s) "imu" = none)) ∧
    ((s.lidar_ready = true →
        lookupField (RosRobot.status_fields s) "lidar" =
          some (RosRobot.lidar_json s.lidar)) ∧
     (s.lidar_ready = false →
        lookupField (RosRobot.status_fields s) "lidar" = none)) ∧
    ((s.camera_ready = true →
        lookupField (RosRobot.status_fields s) "camera" =
          some (RosRobot.camera_json s.camera)) ∧
     (s.camera_ready = false →
        lookupField (RosRobot.status_fields s) "camera" = none)) := by
  refine ⟨fun c => by cases c <;> rfl,
          fun m => by cases m <;> rfl,
          fun ms c h => RosRobot.ready_apply_cbs_mono ms s c h,
          ⟨fun hbt => ?_, fun hbf => ?_⟩, ⟨fun hot => ?_, fun hof => ?_⟩,
          ⟨fun hit => ?_, fun hif => ?_⟩, ⟨fun hlt => ?_, fun hlf => ?_⟩,
          ⟨fun hct => ?_, fun hcf => ?_⟩⟩
  all_goals
    cases hb : s.battery_ready <;> cases ho : s.odom_ready <;>
      cases hi : s.imu_ready <;> cases hl : s.lidar_ready <;>
      cases hc : s.camera_ready <;>
      simp_all [RosRobot.status_fields, lookupField]

/-- Witness for C7: starting from the default status, a single battery
update flips the battery flag, the snapshot then carries the battery value,
and on the untouched initial state the odometry channel is absent while
battery is null. -/
theorem C7_ready_flags_and_snapshot_witness :
    RosRobot.ready RosRobot.init_status RosRobot.Chan.battery = false ∧
    lookupField
      (RosRobot.status_fields
        (RosRobot.apply_cb RosRobot.init_status (RosRobot.RosMsg.battery 1)))
      "battery" = some (.num 1) ∧
    lookupField (RosRobot.status_fields RosRobot.init_status) "odometry" =
      none ∧
    lookupField (RosRobot.status_fields RosRobot.init_status) "battery" =
      some .null :=
  ⟨(C7_ready_flags_and_snapshot RosRobot.init_status).1 RosRobot.Chan.battery,
   (C7_ready_flags_and_snapshot
      (RosRobot.apply_cb RosRobot.init_status (RosRobot.RosMsg.battery 1))).2.2.2.1.1
     rfl,
   (C7_ready_flags_and_snapshot RosRobot.init_status).2.2.2.2.1.2 rfl,
   (C7_ready_flags_and_snapshot RosRobot.init_status).2.2.2.1.2 rfl⟩

namespace SnapshotModel

/-- A channel's stored message for the tearing analysis: the message is
written field by field inside the callback's critical section, abstracted
here to two halves `a` and `b` stored by two separate write instructions
(e.g. the position and orientation halves of an odometry message). -/
structure Val where
  a : ℚ
  b : ℚ
deriving DecidableEq

/-- A thread: the request-handling thread running handle_status, or the
ROS callback thread updating one channel (the claim's N update() calls on
distinct channels — one updater per channel). -/
inductive Tid where
  | snap
  | upd (c : RosRobot.Chan)
deriving DecidableEq

/-- One atomic machine step of a thread: acquire or release the single
g_status mutex, store one half of a channel's value, or copy one channel's
current value out. -/
inductive Instr where
  | acq
  | rel
  | writeA (c : RosRobot.Chan) (v : ℚ)
  | writeB (c : RosRobot.Chan) (v : ℚ)
  | readC (c : RosRobot.Chan)
deriving DecidableEq

/-- The callback for channel `c` writing the message `u c` (driver.cpp
lines 83-107): lock_guard acquisition, the field stores, release. -/
def updProg (u : RosRobot.Chan → Val) (c : RosRobot.Chan) : List Instr :=
  [.acq, .writeA c (u c).a, .writeB c (u c).b, .rel]

/-- The per-channel copies performed by handle_status while the mutex is
held (driver.cpp lines 172-231). -/
def snapReads : List Instr :=
  [.readC .battery, .readC .odom, .readC .imu, .readC .lidar, .readC .camera]

/-- handle_status's critical section: lock_guard acquisition, the copies,
release. -/
def snapProg : List Instr := .acq :: snapReads ++ [.rel]

/-- Global state of the interleaved execution: the mutex (none = free),
the shared per-channel memory, each thread's remaining instructions, and
the snapshot values copied out so far. -/
structure Sys where
  lock : Option Tid
  mem : RosRobot.Chan → Val
  threads : Tid → List Instr
  out : RosRobot.Chan → Option Val

/-- Initial state: mutex free, memory holding the pre-update values `i`,
every thread at the start of its program, nothing copied out. -/
def initSys (i u : RosRobot.Chan → Val) : Sys :=
  { lock := none
    mem := i
    threads := fun t => match t with
      | .snap => snapProg
      | .upd c => updProg u c
    out := fun _ => none }

/-- Execute one step of thread `t`: its next instruction if enabled (an
acquire of a held mutex, and an exhausted thread, leave the state
unchanged; a blocked acquire is retried when the scheduler picks the
thread again). -/
def exec (s : Sys) (t : Tid) : Sys :=
  match s.threads t with
  | [] => s
  | .acq :: rest =>
      if s.lock = none then
        { s with lock := some t, threads := Function.update s.threads t rest }
      else s
  | .rel :: rest =>
      if s.lock = some t then
        { s with lock := none, threads := Function.update s.threads t rest }
      else s
  | .writeA c v :: rest =>
      { s with mem := Function.update s.mem c ⟨v, (s.mem c).b⟩,
               threads := Function.update s.threads t rest }
  | .writeB c v :: rest =>
      { s with mem := Function.update s.mem c ⟨(s.mem c).a, v⟩,
               threads := Function.update s.threads t rest }
  | .readC c :: rest =>
      { s with out := Function.update s.out c (some (s.mem c)),
               threads := Function.update s.threads t rest }

/-- Run a schedule: an arbitrary interleaving chosen by the scheduler. -/
def run (s : Sys) : List Tid → Sys
  | [] => s
  | t :: ts => run (exec s t) ts

/-- Invariant for the updater of channel `c`: its remaining program is a
suffix of its critical section; between acquire and release it holds the
mutex; and the shared value of `c` is determined by its progress — the
half-written state occurs only while it holds the mutex. -/
def UpdInv (i u : RosRobot.Chan → Val) (s : Sys) (c : RosRobot.Chan) : Prop :=
  (s.threads (.upd c) = updProg u c ∧ s.mem c = i c) ∨
  (s.threads (.upd c) = [.writeA c (u c).a, .writeB c (u c).b, .rel] ∧
    s.mem c = i c ∧ s.lock = some (.upd c)) ∨
  (s.threads (.upd c) = [.writeB c (u c).b, .rel] ∧
    s.mem c = ⟨(u c).a, (i c).b⟩ ∧ s.lock = some (.upd c)) ∨
  (s.threads (.upd c) = [.rel] ∧ s.mem c = u c ∧ s.lock = some (.upd c)) ∨
  (s.threads (.upd c) = [] ∧ s.mem c = u c)

/-- Invariant for the snapshot thread: its remaining program is a suffix
of handle_status's critical section, and it holds the mutex strictly
between its acquire and its release. -/
def SnapInv (s : Sys) : Prop :=
  s.threads .snap = snapProg ∨
  (s.lock = some .snap ∧
    (s.threads .snap = snapReads ++ [.rel] ∨
     s.threads .snap =
       [.readC .odom, .readC .imu, .readC .lidar, .readC .camera, .rel] ∨
     s.threads .snap = [.readC .imu, .readC .lidar, .readC .camera, .rel] ∨
     s.threads .snap = [.readC .lidar, .readC .camera, .rel] ∨
     s.threads .snap = [.readC .camera, .rel] ∨
     s.threads .snap = [.rel])) ∨
  s.threads .snap = []

/-- Invariant for the copied-out snapshot: every value copied so far is a
whole pre-update or whole post-update value. -/
def OutInv (i u : RosRobot.Chan → Val) (s : Sys) : Prop :=
  ∀ c, s.out c = none ∨ s.out c = some (i c) ∨ s.out c = some (u c)

/-- The global invariant. -/
def Inv (i u : RosRobot.Chan → Val) (s : Sys) : Prop :=
  (∀ c, UpdInv i u s c) ∧ SnapInv s ∧ OutInv i u s

theorem UpdInv_frame_lock_eq {i u : RosRobot.Chan → Val} {s s' : Sys}
    {c : RosRobot.Chan} (h : UpdInv i u s c) (hmem : s'.mem c = s.mem c)
    (hth : s'.threads (.upd c) = s.threads (.upd c))
    (hl : s'.lock = s.lock) : UpdInv i u s' c := by
  unfold UpdInv at h ⊢
  rw [hmem, hth, hl]
  exact h

theorem UpdInv_frame_not_held {i u : RosRobot.Chan → Val} {s s' : Sys}
    {c : RosRobot.Chan} (h : UpdInv i u s c)
    (hnot : s.lock ≠ some (.upd c)) (hmem : s'.mem c = s.mem c)
    (hth : s'.threads (.upd c) = s.threads (.upd c)) : UpdInv i u s' c := by
  rcases h with h | h | h | h | h
  · exact Or.inl ⟨hth.trans h.1, hmem.trans h.2⟩
  · exact absurd h.2.2 hnot
  · exact absurd h.2.2 hnot
  · exact absurd h.2.2 hnot
  · exact Or.inr (Or.inr (Or.inr (Or.inr ⟨hth.trans h.1, hmem.trans h.2⟩)))

theorem SnapInv_frame_lock_eq {s s' : Sys} (h : SnapInv s)
    (hth : s'.threads .snap = s.threads .snap)
    (hl : s'.lock = s.lock) : SnapInv s' := by
  unfold SnapInv at h ⊢
  rw [hth, hl]
  exact h

theorem SnapInv_frame_not_held {s s' : Sys} (h : SnapInv s)
    (hnot : s.lock ≠ some .snap)
    (hth : s'.threads .snap = s.threads .snap) : SnapInv s' := by
  rcases h with h | h | h
  · exact Or.inl (hth.trans h)
  · exact absurd h.1 hnot
  · exact Or.inr (Or.inr (hth.trans h))

theorem upd_ne_snap (c : RosRobot.Chan) : Tid.upd c ≠ Tid.snap :=
  fun hh => Tid.noConfusion hh

theorem snap_ne_upd (c : RosRobot.Chan) : Tid.snap ≠ Tid.upd c :=
  fun hh => Tid.noConfusion hh

theorem exec_preserves (i u : RosRobot.Chan → Val) (s : Sys) (t : Tid)
    (h : Inv i u s) : Inv i u (exec s t) := by
  obtain ⟨hupd, hsnap, hout⟩ := h
  have houtRead : s.lock = some Tid.snap →
      ∀ c, some (s.mem c) = none ∨ some (s.mem c) = some (i c) ∨
        some (s.mem c) = some (u c) := by
    intro hl c
    rcases hupd c with hu | hu | hu | hu | hu
    · exact Or.inr (Or.inl (by rw [hu.2]))
    · exact absurd (Option.some.inj (hl.symm.trans hu.2.2))
        (fun hh => Tid.noConfusion hh)
    · exact absurd (Option.some.inj (hl.symm.trans hu.2.2))
        (fun hh => Tid.noConfusion hh)
    · exact absurd (Option.some.inj (hl.symm.trans hu.2.2))
        (fun hh => Tid.noConfusion hh)
    · exact Or.inr (Or.inr (by rw [hu.2]))
  cases t with
  | snap =>
      rcases hsnap with h0 | ⟨hl, hmid⟩ | hdone
      · cases hlock : s.lock with
        | none =>
            have he : exec s .snap =
                { s with lock := some .snap,
                         threads := Function.update s.threads .snap
                           (snapReads ++ [.rel]) } := by
              simp [exec, h0, snapProg, hlock]
            rw [he]
            refine ⟨fun c => ?_, ?_, hout⟩
            · exact UpdInv_frame_not_held (hupd c)
                (by rw [hlock]; exact fun hh => Option.noConfusion hh) rfl
                (by simp)
            · exact Or.inr (Or.inl ⟨rfl, Or.inl (by simp)⟩)
        | some tl =>
            have he : exec s .snap = s := by simp [exec, h0, snapProg, hlock]
            rw [he]
            exact ⟨hupd, Or.inl h0, hout⟩
      · rcases hmid with hm | hm | hm | hm | hm | hm
        · have he : exec s .snap =
              { s with out := Function.update s.out RosRobot.Chan.battery
                         (some (s.mem RosRobot.Chan.battery)),
                       threads := Function.update s.threads .snap
                         [.readC .odom, .readC .imu, .readC .lidar,
                          .readC .camera, .rel] } := by
            simp [exec, hm, snapReads]
          rw [he]
          refine ⟨fun c => UpdInv_frame_lock_eq (hupd c) rfl
              (by simp) rfl,
            Or.inr (Or.inl ⟨hl, Or.inr (Or.inl (by simp))⟩),
            fun c => ?_⟩
          by_cases hc : c = RosRobot.Chan.battery
          · subst hc
            simp only [Function.update_same]
            exact houtRead hl _
          · simp only [Function.update_noteq hc]
            exact hout c
        · have he : exec s .snap =
              { s with out := Function.update s.out RosRobot.Chan.odom
                         (some (s.mem RosRobot.Chan.odom)),
                       threads := Function.update s.threads .snap
                         [.readC .imu, .readC .lidar, .readC .camera, .rel] } := by
            simp [exec, hm]
          rw [he]
          refine ⟨fun c => UpdInv_frame_lock_eq (hupd c) rfl
              (by simp) rfl,
            Or.inr (Or.inl ⟨hl,
              Or.inr (Or.inr (Or.inl (by simp)))⟩),
            fun c => ?_⟩
          by_cases hc : c = RosRobot.Chan.odom
          · subst hc
            simp only [Function.update_same]
            exact houtRead hl _
          · simp only [Function.update_noteq hc]
            exact hout c
        · have he : exec s .snap =
              { s with out := Function.update s.out RosRobot.Chan.imu
                         (some (s.mem RosRobot.Chan.imu)),
                       threads := Function.update s.threads .snap
                         [.readC .lidar, .readC .camera, .rel] } := by
            simp [exec, hm]
          rw [he]
          refine ⟨fun c => UpdInv_frame_lock_eq (hupd c) rfl
              (by simp) rfl,
            Or.inr (Or.inl ⟨hl,
              Or.inr (Or.inr (Or.inr (Or.inl (by simp))))⟩),
            fun c => ?_⟩
          by_cases hc : c = RosRobot.Chan.imu
          · subst hc
            simp only [Function.update_same]
            exact houtRead hl _
          · simp only [Function.update_noteq hc]
            exact hout c
        · have he : exec s .snap =
              { s with out := Function.update s.out RosRobot.Chan.lidar
                         (some (s.mem RosRobot.Chan.lidar)),
                       threads := Function.update s.threads .snap
                         [.readC .camera, .rel] } := by
            simp [exec, hm]
          rw [he]
          refine ⟨fun c => UpdInv_frame_lock_eq (hupd c) rfl
              (by simp) rfl,
            Or.inr (Or.inl ⟨hl, Or.inr (Or.inr (Or.inr (Or.inr
              (Or.inl (by simp)))))⟩),
            fun c => ?_⟩
          by_cases hc : c = RosRobot.Chan.lidar
          · subst hc
            simp only [Function.update_same]
            exact houtRead hl _
          · simp only [Function.update_noteq hc]
            exact hout c
        · have he : exec s .snap =
              { s with out := Function.update s.out RosRobot.Chan.camera
                         (some (s.mem RosRobot.Chan.camera)),
                       threads := Function.update s.threads .snap [.rel] } := by
            simp [exec, hm]
          rw [he]
          refine ⟨fun c => UpdInv_frame_lock_eq (hupd c) rfl
              (by simp) rfl,
            Or.inr (Or.inl ⟨hl, Or.inr (Or.inr (Or.inr (Or.inr
              (Or.inr (by simp)))))⟩),
            fun c => ?_⟩
          by_cases hc : c = RosRobot.Chan.camera
          · subst hc
            simp only [Function.update_same]
            exact houtRead hl _
          · simp only [Function.update_noteq hc]
            exact hout c
        · have he : exec s .snap =
              { s with lock := none,
                       threads := Function.update s.threads .snap [] } := by
            simp [exec, hm, hl]
          rw [he]
          refine ⟨fun c => ?_, Or.inr (Or.inr (by simp)),
            hout⟩
          exact UpdInv_frame_not_held (hupd c)
            (by rw [hl]
                exact fun hh =>
                  Tid.noConfusion (Option.some.inj hh)) rfl
            (by simp)
      · have he : exec s .snap = s := by simp [exec, hdone]
        rw [he]
        exact ⟨hupd, Or.inr (Or.inr hdone), hout⟩
  | upd c0 =>
      rcases hupd c0 with hu | hu | hu | hu | hu
      · cases hlock : s.lock with
        | none =>
            have he : exec s (.upd c0) =
                { s with lock := some (.upd c0),
                         threads := Function.update s.threads (.upd c0)
                           [.writeA c0 (u c0).a, .writeB c0 (u c0).b, .rel] } := by
              simp [exec, hu.1, updProg, hlock]
            rw [he]
            refine ⟨fun c => ?_, SnapInv_frame_not_held hsnap
              (by rw [hlock]; exact fun hh => Option.noConfusion hh)
              (by simp), hout⟩
            by_cases hc : c = c0
            · subst hc
              exact Or.inr (Or.inl ⟨by simp, hu.2, rfl⟩)
            · exact UpdInv_frame_not_held (hupd c)
                (by rw [hlock]; exact fun hh => Option.noConfusion hh) rfl
                (by simp [hc])
        | some tl =>
            have he : exec s (.upd c0) = s := by
              simp [exec, hu.1, updProg, hlock]
            rw [he]
            exact ⟨hupd, hsnap, hout⟩
      · have he : exec s (.upd c0) =
            { s with mem := Function.update s.mem c0
                       ⟨(u c0).a, (s.mem c0).b⟩,
                     threads := Function.update s.threads (.upd c0)
                       [.writeB c0 (u c0).b, .rel] } := by
          simp [exec, hu.1]
        rw [he]
        refine ⟨fun c => ?_, SnapInv_frame_lock_eq hsnap
          (by simp) rfl, hout⟩
        by_cases hc : c = c0
        · subst hc
          refine Or.inr (Or.inr (Or.inl ⟨by simp, ?_,
            hu.2.2⟩))
          simp only [Function.update_same]
          rw [hu.2.1]
        · exact UpdInv_frame_lock_eq (hupd c) (by simp [hc])
            (by simp [hc]) rfl
      · have he : exec s (.upd c0) =
            { s with mem := Function.update s.mem c0
                       ⟨(s.mem c0).a, (u c0).b⟩,
                     threads := Function.update s.threads (.upd c0) [.rel] } := by
          simp [exec, hu.1]
        rw [he]
        refine ⟨fun c => ?_, SnapInv_frame_lock_eq hsnap
          (by simp) rfl, hout⟩
        by_cases hc : c = c0
        · subst hc
          refine Or.inr (Or.inr (Or.inr (Or.inl ⟨by simp,
            ?_, hu.2.2⟩)))
          simp only [Function.update_same]
          rw [hu.2.1]
        · exact UpdInv_frame_lock_eq (hupd c) (by simp [hc])
            (by simp [hc]) rfl
      · have he : exec s (.upd c0) =
            { s with lock := none,
                     threads := Function.update s.threads (.upd c0) [] } := by
          simp [exec, hu.1, hu.2.2]
        rw [he]
        refine ⟨fun c => ?_, SnapInv_frame_not_held hsnap
          (by rw [hu.2.2]
              exact fun hh => Tid.noConfusion (Option.some.inj hh))
          (by simp), hout⟩
        by_cases hc : c = c0
        · subst hc
          exact Or.inr (Or.inr (Or.inr (Or.inr
            ⟨by simp, hu.2.1⟩)))
        · exact UpdInv_frame_not_held (hupd c)
            (by rw [hu.2.2]
                exact fun hh => hc (Tid.upd.inj (Option.some.inj hh)).symm) rfl
            (by simp [hc])
      · have he : exec s (.upd c0) = s := by simp [exec, hu.1]
        rw [he]
        exact ⟨hupd, hsnap, hout⟩

theorem run_preserves (i u : RosRobot.Chan → Val) (ts : List Tid) :
    ∀ s : Sys, Inv i u s → Inv i u (run s ts) := by
  induction ts with
  | nil => intro s h; exact h
  | cons t ts ih => intro s h; exact ih (exec s t) (exec_preserves i u s t h)

theorem inv_initSys (i u : RosRobot.Chan → Val) : Inv i u (initSys i u) :=
  ⟨fun _ => Or.inl ⟨rfl, rfl⟩, Or.inl rfl, fun _ => Or.inl rfl⟩

end SnapshotModel

/-- C9: a status snapshot interleaved arbitrarily with concurrent updates
on distinct channels returns, for each channel, either that channel's
entire pre-update value or its entire post-update value — never a torn
mixture — because every field store of a callback and every copy of
handle_status happens with the single g_status mutex held. For every
schedule (interleaving), every value the snapshot copies out is a whole
pre-update value `i c` or a whole post-update value `u c`. -/
theorem C9_snapshot_never_torn (i u : RosRobot.Chan → SnapshotModel.Val)
    (schedule : List SnapshotModel.Tid) (c : RosRobot.Chan)
    (v : SnapshotModel.Val)
    (h : (SnapshotModel.run (SnapshotModel.initSys i u) schedule).out c =
      some v) :
    v = i c ∨ v = u c := by
  have hinv := SnapshotModel.run_preserves i u schedule
    (SnapshotModel.initSys i u) (SnapshotModel.inv_initSys i u)
  rcases hinv.2.2 c with h0 | h0 | h0
  · rw [h] at h0; exact absurd h0 (fun hh => Option.noConfusion hh)
  · rw [h] at h0; exact Or.inl (Option.some.inj h0)
  · rw [h] at h0; exact Or.inr (Option.some.inj h0)

/-- Witness for C9: running the snapshot thread to completion before any
update copies out the whole pre-update battery value, which the theorem
certifies as untorn. -/
theorem C9_snapshot_never_torn_witness :
    (SnapshotModel.run
        (SnapshotModel.initSys (fun _ => ⟨0, 0⟩) (fun _ => ⟨1, 1⟩))
        (List.replicate 7 SnapshotModel.Tid.snap)).out
      RosRobot.Chan.battery = some ⟨0, 0⟩ ∧
    ((⟨0, 0⟩ : SnapshotModel.Val) = ⟨0, 0⟩ ∨
     (⟨0, 0⟩ : SnapshotModel.Val) = ⟨1, 1⟩) :=
  ⟨by decide,
   C9_snapshot_never_torn (fun _ => ⟨0, 0⟩) (fun _ => ⟨1, 1⟩)
     (List.replicate 7 SnapshotModel.Tid.snap) RosRobot.Chan.battery
     ⟨0, 0⟩ (by decide)⟩
